import Mathlib

/-!
Verification of the DREX dryer-exhaust sizing engine.

This file gives a shallow embedding, over exact rationals, of the numerical
engine of `drex_calculator.py`: the duct physics functions
(`calculate_velocity`, `calculate_duct_pressure_loss`), the manifold diameter
optimizer (`optimize_manifold_diameter`), the fan selector (`select_def_fan`
together with the `DEF_FAN_CURVES` catalog and numpy's linear interpolation),
and the system aggregation performed by `show_manifold_input_screen`.

Python floats are modelled as exact rationals; numpy's `pi` is modelled by the
rational value of its shortest decimal representation.  Python's builtin
`max` on a non-empty list is modelled by `list_max`, and Python's stable
`list.sort(key=...)` by `List.insertionSort` (stable insertion before the
first element with a greater-or-equal key, which coincides with the result of
any stable ascending sort).
-/

/-- Constant `DRYER_CONNECTOR_MAX_DP = 0.25` (IN WC), drex_calculator.py line 31. -/
def DRYER_CONNECTOR_MAX_DP : ℚ := 0.25

/-- Constant `MANIFOLD_MAX_DP = 1.0` (IN WC), line 32. -/
def MANIFOLD_MAX_DP : ℚ := 1.0

/-- Constant `AIR_DENSITY = 0.0696` (lb/ft^3 at 120°F), line 33. -/
def AIR_DENSITY : ℚ := 0.0696

/-- Constant `DUCT_FRICTION_FACTOR = 0.35`, line 34. -/
def DUCT_FRICTION_FACTOR : ℚ := 0.35

/-- `K_VALUES["90° Elbow"]`. -/
def K_90_ELBOW : ℚ := 0.5

/-- `K_VALUES["45° Elbow"]`. -/
def K_45_ELBOW : ℚ := 0.25

/-- `K_VALUES["30° Elbow"]`. -/
def K_30_ELBOW : ℚ := 0.15

/-- `K_VALUES["Lateral Tee"]`. -/
def K_LATERAL_TEE : ℚ := 0.75

/-- Entered as `K_VALUES["Entry (flush)"]`. -/
def K_ENTRY_FLUSH : ℚ := 0.5

/-- `K_VALUES["Exit"]`. -/
def K_EXIT : ℚ := 1.0

/-- Rational value of `np.pi`, the shortest decimal representation of the
IEEE-754 double `numpy` uses. -/
def np_pi : ℚ := 3.141592653589793

/-- `calculate_velocity(cfm, diameter)` (lines 203-208):
`area_sq_ft = (np.pi * (diameter / 12) ** 2) / 4`; returns `cfm / area_sq_ft`
when the area is positive and `0` otherwise. -/
def calculate_velocity (cfm diameter : ℚ) : ℚ :=
  let area_sq_ft := (np_pi * (diameter / 12) ^ 2) / 4
  if area_sq_ft > 0 then cfm / area_sq_ft else 0

/-- `calculate_duct_pressure_loss(length, diameter, velocity, k_sum, rho)`
(lines 169-201) with the density argument explicit:
`dp = ((0.35*L/D) + SUM(k)) * rho * (V/1096.2)^2`, returning `0` when
`diameter <= 0`. -/
def calculate_duct_pressure_loss_rho (length diameter velocity k_sum rho : ℚ) : ℚ :=
  if diameter ≤ 0 then 0
  else
    let friction_term := DUCT_FRICTION_FACTOR * (length / diameter)
    let total_term := friction_term + k_sum
    let velocity_term := (velocity / 1096.2) ^ 2
    total_term * rho * velocity_term

/-- `calculate_duct_pressure_loss` at its default density `rho = AIR_DENSITY`,
which is how every call site in the repository invokes it. -/
def calculate_duct_pressure_loss (length diameter velocity k_sum : ℚ) : ℚ :=
  calculate_duct_pressure_loss_rho length diameter velocity k_sum AIR_DENSITY

/-- The fixed table `standard_diameters` inside `optimize_manifold_diameter`
(line 215). -/
def standard_diameters : List ℚ :=
  [4, 5, 6, 7, 8, 9, 10, 12, 14, 16, 18, 20, 22, 24, 26, 28, 30, 32, 34, 36]

/-- The `for` loop of `optimize_manifold_diameter` (lines 217-227): return the
first diameter of the list whose computed loss is at most `max_dp`; when the
list is exhausted, fall back to `standard_diameters[-1] = 36` with its
computed velocity and loss. -/
def optimize_go (total_cfm length k_sum max_dp : ℚ) : List ℚ → ℚ × ℚ × ℚ
  | [] =>
    (36, calculate_velocity total_cfm 36,
      calculate_duct_pressure_loss length 36 (calculate_velocity total_cfm 36) k_sum)
  | d :: ds =>
    if calculate_duct_pressure_loss length d (calculate_velocity total_cfm d) k_sum ≤ max_dp then
      (d, calculate_velocity total_cfm d,
        calculate_duct_pressure_loss length d (calculate_velocity total_cfm d) k_sum)
    else optimize_go total_cfm length k_sum max_dp ds

/-- `optimize_manifold_diameter(total_cfm, length, k_sum, max_dp)`
(lines 210-227). -/
def optimize_manifold_diameter (total_cfm length k_sum max_dp : ℚ) : ℚ × ℚ × ℚ :=
  optimize_go total_cfm length k_sum max_dp standard_diameters

/-- One entry of `DEF_FAN_CURVES`: a model name with its CFM and SP sample
lists. -/
structure FanCurve where
  model : String
  cfm : List ℚ
  sp : List ℚ
deriving DecidableEq

/-- The `DEF_FAN_CURVES` catalog (lines 47-72), in dict insertion order. -/
def DEF_FAN_CURVES : List FanCurve :=
  [⟨"DEF04", [540, 490, 430, 350, 240], [0, 0.25, 0.5, 0.75, 1.0]⟩,
   ⟨"DEF08", [970, 890, 840, 780, 680, 540, 440, 270],
     [0, 0.25, 0.5, 0.75, 1.0, 1.25, 1.5, 1.75]⟩,
   ⟨"DEF015", [1860, 1780, 1700, 1610, 1520, 1410, 1280, 1140, 990],
     [0, 0.25, 0.5, 0.75, 1.0, 1.25, 1.5, 1.75, 2.0]⟩,
   ⟨"DEF025", [2480, 2400, 2320, 2230, 2140, 2040, 1930, 1790, 1630],
     [0, 0.25, 0.5, 0.75, 1.0, 1.25, 1.5, 1.75, 2.0]⟩,
   ⟨"DEF035", [4100, 3940, 3770, 3610, 3460, 3300, 3120, 2900, 2630],
     [0, 0.25, 0.5, 0.75, 1.0, 1.25, 1.5, 1.75, 2.0]⟩,
   ⟨"DEF050", [5850, 5660, 5450, 5300, 5090, 4890, 4680, 4460, 4230],
     [0, 0.25, 0.5, 0.75, 1.0, 1.25, 1.5, 1.75, 2.0]⟩]

/-- Python's builtin `max` on a list, with junk value `0` on the empty list
(Python raises there; every use in the program is on a non-empty list). -/
def list_max : List ℚ → ℚ
  | [] => 0
  | x :: xs => xs.foldl max x

/-- `np.interp(x, xp, fp)` for `xp` sorted ascending: clamp to the first and
last `fp` values outside the sampled range, and interpolate linearly between
the two adjacent samples bracketing `x` inside it.  Mismatched or empty
sample lists (which never occur in the catalog) yield the junk value `0`. -/
def np_interp (x : ℚ) : List ℚ → List ℚ → ℚ
  | x0 :: x1 :: xs, y0 :: y1 :: ys =>
    if x ≤ x0 then y0
    else if x ≤ x1 then y0 + (y1 - y0) * (x - x0) / (x1 - x0)
    else np_interp x (x1 :: xs) (y1 :: ys)
  | [_], [y0] => y0
  | _, _ => 0

/-- One element of the `suitable_fans` list built by `select_def_fan`
(lines 241-248). -/
structure FanCandidate where
  model : String
  available_cfm : ℚ
  margin : ℚ
  max_cfm : ℚ
  max_sp : ℚ
deriving DecidableEq

/-- The body of the `for` loop of `select_def_fan` (lines 233-248) for one
catalog entry: `None` when the fan is filtered out, the appended candidate
record otherwise.  Note the margin division `(available_cfm - required_cfm) /
required_cfm` happens only after both tests pass. -/
def fan_candidate (required_cfm required_sp : ℚ) (f : FanCurve) : Option FanCandidate :=
  if required_sp ≤ list_max f.sp then
    if np_interp required_sp f.sp f.cfm ≥ required_cfm then
      some ⟨f.model, np_interp required_sp f.sp f.cfm,
        ((np_interp required_sp f.sp f.cfm - required_cfm) / required_cfm) * 100,
        list_max f.cfm, list_max f.sp⟩
    else none
  else none

/-- The `suitable_fans` list of `select_def_fan` before sorting, in catalog
order. -/
def qualifying_fans (required_cfm required_sp : ℚ) : List FanCandidate :=
  DEF_FAN_CURVES.filterMap (fan_candidate required_cfm required_sp)

/-- The sort relation of `suitable_fans.sort(key=lambda x: abs(x['margin'] - 17.5))`
(line 252). -/
def fanLE (a b : FanCandidate) : Prop :=
  abs (a.margin - 17.5) ≤ abs (b.margin - 17.5)

instance : DecidableRel fanLE := fun a b =>
  inferInstanceAs (Decidable (abs (a.margin - 17.5) ≤ abs (b.margin - 17.5)))

instance : IsTotal FanCandidate fanLE :=
  ⟨fun a b => le_total (abs (a.margin - 17.5)) (abs (b.margin - 17.5))⟩

instance : IsTrans FanCandidate fanLE :=
  ⟨fun _ _ _ hab hbc => le_trans hab hbc⟩

/-- `select_def_fan(required_cfm, required_sp)` (lines 229-254): the
qualifying candidates, stably sorted by distance of the margin from 17.5 %. -/
def select_def_fan (required_cfm required_sp : ℚ) : List FanCandidate :=
  List.insertionSort fanLE (qualifying_fans required_cfm required_sp)

/-- `select_def_fan` with Python's partiality made explicit: `none` exactly
when the margin line divides by zero, i.e. when `required_cfm = 0` and some
fan reaches the margin computation (passes the SP-range test and the
`available_cfm >= required_cfm` test). -/
def select_def_fan_checked (required_cfm required_sp : ℚ) : Option (List FanCandidate) :=
  if required_cfm = 0 ∧ ∃ f ∈ DEF_FAN_CURVES,
      required_sp ≤ list_max f.sp ∧ required_cfm ≤ np_interp required_sp f.sp f.cfm
  then none
  else some (select_def_fan required_cfm required_sp)

/-- The user inputs of one dryer collected by `show_dryer_input_screen`
(lines 910-925): CFM, outlet diameter (inches), connector length (feet),
additional K-value and the four fitting counts. -/
structure DryerInput where
  cfm : ℚ
  outlet_diameter : ℚ
  connector_length : ℚ
  additional_k : ℚ
  num_90_elbows : ℕ
  num_45_elbows : ℕ
  num_30_elbows : ℕ
  num_lateral_tees : ℕ
deriving DecidableEq

/-- The `k_total` computed when a dryer is added (lines 936-944): fitting
counts times their K-values, plus entry, exit and the additional K-value. -/
def dryer_total_k (d : DryerInput) : ℚ :=
  d.num_90_elbows * K_90_ELBOW +
  d.num_45_elbows * K_45_ELBOW +
  d.num_30_elbows * K_30_ELBOW +
  d.num_lateral_tees * K_LATERAL_TEE +
  K_ENTRY_FLUSH + K_EXIT + d.additional_k

/-- The `connector_velocity` stored with a dryer (line 960). -/
def dryer_connector_velocity (d : DryerInput) : ℚ :=
  calculate_velocity d.cfm d.outlet_diameter

/-- The `connector_dp` stored with a dryer (line 961). -/
def dryer_connector_dp (d : DryerInput) : ℚ :=
  calculate_duct_pressure_loss d.connector_length d.outlet_diameter
    (dryer_connector_velocity d) (dryer_total_k d)

/-- The manifold inputs of `show_manifold_input_screen`: length, either a
manual diameter or `none` for optimization mode, fitting counts (lateral tees
only — straight-through tees are excluded by the UI) and additional K. -/
structure ManifoldInput where
  length : ℚ
  manual_diameter : Option ℚ
  num_90_elbows : ℕ
  num_45_elbows : ℕ
  num_30_elbows : ℕ
  num_lateral_tees : ℕ
  additional_k : ℚ

/-- The `k_total_manifold` computed on submit (lines 1053-1061). -/
def manifold_total_k (m : ManifoldInput) : ℚ :=
  m.num_90_elbows * K_90_ELBOW +
  m.num_45_elbows * K_45_ELBOW +
  m.num_30_elbows * K_30_ELBOW +
  m.num_lateral_tees * K_LATERAL_TEE +
  K_ENTRY_FLUSH + K_EXIT + m.additional_k

/-- The manifold (diameter, velocity, dp) branch of lines 1076-1081: optimize
when requested, otherwise evaluate the physics at the user's diameter. -/
def manifold_calc (total_cfm : ℚ) (m : ManifoldInput) : ℚ × ℚ × ℚ :=
  match m.manual_diameter with
  | none => optimize_manifold_diameter total_cfm m.length (manifold_total_k m) MANIFOLD_MAX_DP
  | some dia =>
    (dia, calculate_velocity total_cfm dia,
      calculate_duct_pressure_loss m.length dia (calculate_velocity total_cfm dia)
        (manifold_total_k m))

/-- The `calculation_results` dict stored by `show_manifold_input_screen`
(lines 1101-1110). -/
structure SystemResult where
  total_cfm : ℚ
  worst_connector_dp : ℚ
  manifold_dp : ℚ
  manifold_velocity : ℚ
  manifold_total_k : ℚ
  total_system_dp : ℚ
  suitable_fans : List FanCandidate
  selected_fan : Option FanCandidate

/-- The system aggregation of `show_manifold_input_screen` (lines 1005,
1076-1110): total CFM is the sum of the dryer CFMs, the worst connector loss
is the `max` over the stored per-dryer `connector_dp` values, the total
system loss is that maximum plus the manifold loss, and the fan list is
`select_def_fan(total_cfm, total_system_dp)` with `selected_fan` its first
element (or `None` when empty). -/
def compute_system (dryers : List DryerInput) (m : ManifoldInput) : SystemResult :=
  let total_cfm := (dryers.map DryerInput.cfm).sum
  let mc := manifold_calc total_cfm m
  let worst_connector_dp := list_max (dryers.map dryer_connector_dp)
  let total_system_dp := worst_connector_dp + mc.2.2
  let suitable_fans := select_def_fan total_cfm total_system_dp
  { total_cfm := total_cfm
    worst_connector_dp := worst_connector_dp
    manifold_dp := mc.2.2
    manifold_velocity := mc.2.1
    manifold_total_k := manifold_total_k m
    total_system_dp := total_system_dp
    suitable_fans := suitable_fans
    selected_fan := suitable_fans.head? }

/-- The pressure loss `optimize_manifold_diameter` computes when it probes a
candidate diameter `d`. -/
def manifold_loss_at (total_cfm length k_sum d : ℚ) : ℚ :=
  calculate_duct_pressure_loss length d (calculate_velocity total_cfm d) k_sum

/-! ### Concrete inputs used by witnesses and scenario claims -/

/-- The spec's single-dryer scenario: CFM 200, outlet 4", connector 10 ft,
two 90° elbows, one lateral tee, no additional K. -/
def scenario_dryer : DryerInput := ⟨200, 4, 10, 0, 2, 0, 0, 1⟩

/-- A simple manifold input (50 ft, optimization mode, two 90° elbows). -/
def sample_manifold : ManifoldInput := ⟨50, none, 2, 0, 0, 0, 0⟩


/-- The DEF015 candidate at 1500 CFM / 0.6" WC: interpolated 1664 CFM,
margin 164/15 ≈ 10.93 %. -/
def cand015 : FanCandidate := ⟨"DEF015", 1664, 164/15, 1860, 2⟩

/-- The DEF025 candidate at 1500 CFM / 0.6" WC. -/
def cand025 : FanCandidate := ⟨"DEF025", 2284, 784/15, 2480, 2⟩

/-- The DEF035 candidate at 1500 CFM / 0.6" WC. -/
def cand035 : FanCandidate := ⟨"DEF035", 3706, 2206/15, 4100, 2⟩

/-- The DEF050 candidate at 1500 CFM / 0.6" WC. -/
def cand050 : FanCandidate := ⟨"DEF050", 5390, 778/3, 5850, 2⟩

/-- A 3000-CFM dryer used to build a 6000-CFM two-dryer system. -/
def big_dryer : DryerInput := ⟨3000, 8, 10, 0, 0, 0, 0, 0⟩


/-! ### Helper lemmas -/

lemma le_foldl_max (l : List ℚ) (a : ℚ) : a ≤ l.foldl max a := by
  induction l generalizing a with
  | nil => exact le_refl a
  | cons x xs ih => exact le_trans (le_max_left a x) (ih (max a x))

lemma foldl_max_mem (l : List ℚ) (a : ℚ) : l.foldl max a = a ∨ l.foldl max a ∈ l := by
  induction l generalizing a with
  | nil => exact Or.inl rfl
  | cons x xs ih =>
    rcases ih (max a x) with h | h
    · rcases max_choice a x with hm | hm
      · exact Or.inl (by rw [List.foldl_cons, h, hm])
      · exact Or.inr (by rw [List.foldl_cons, h, hm]; exact List.mem_cons_self x xs)
    · exact Or.inr (List.mem_cons_of_mem x h)

lemma mem_le_foldl_max {b : ℚ} (l : List ℚ) (a : ℚ) (h : b ∈ l) : b ≤ l.foldl max a := by
  induction l generalizing a with
  | nil => exact absurd h (List.not_mem_nil b)
  | cons x xs ih =>
    rcases List.mem_cons.mp h with rfl | hb
    · exact le_trans (le_max_right a b) (le_foldl_max xs (max a b))
    · exact ih (max a x) hb

lemma list_max_mem {l : List ℚ} (h : l ≠ []) : list_max l ∈ l := by
  cases l with
  | nil => exact absurd rfl h
  | cons x xs =>
    rcases foldl_max_mem xs x with h1 | h1
    · simp only [list_max]; rw [h1]; exact List.mem_cons_self x xs
    · simp only [list_max]; exact List.mem_cons_of_mem x h1

lemma le_list_max {l : List ℚ} {b : ℚ} (h : b ∈ l) : b ≤ list_max l := by
  cases l with
  | nil => exact absurd h (List.not_mem_nil b)
  | cons x xs =>
    rcases List.mem_cons.mp h with rfl | hb
    · exact le_foldl_max xs b
    · exact mem_le_foldl_max xs x hb

/-- Linear interpolation never exceeds an upper bound of the sample values,
for strictly increasing abscissas. -/
lemma np_interp_le {B x : ℚ} : ∀ xp fp : List ℚ, xp.length = fp.length →
    xp.Chain' (· < ·) → fp ≠ [] → (∀ y ∈ fp, y ≤ B) → np_interp x xp fp ≤ B := by
  intro xp
  induction xp with
  | nil =>
    intro fp hlen _ hne _
    cases fp with
    | nil => exact absurd rfl hne
    | cons y ys => simp at hlen
  | cons x0 xtl ih =>
    intro fp hlen hch hne hB
    cases fp with
    | nil => simp at hlen
    | cons y0 ytl =>
      cases xtl with
      | nil =>
        cases ytl with
        | nil => simpa [np_interp] using hB y0 (List.mem_cons_self y0 [])
        | cons y1 ys => simp at hlen
      | cons x1 xs =>
        cases ytl with
        | nil => simp at hlen
        | cons y1 ys =>
          have hx01 : x0 < x1 := (List.chain'_cons.mp hch).1
          rw [np_interp]
          split
          · exact hB y0 (by simp)
          · split
            · rename_i h0 h1
              have hy0 : y0 ≤ B := hB y0 (by simp)
              have hy1 : y1 ≤ B := hB y1 (by simp)
              have hd : 0 < x1 - x0 := by linarith
              have hx0x : x0 < x := lt_of_not_le h0
              have h3 : (y1 - y0) * (x - x0) / (x1 - x0) ≤ B - y0 := by
                rw [div_le_iff₀ hd]
                nlinarith [mul_nonneg (by linarith : (0:ℚ) ≤ B - y0)
                    (by linarith : (0:ℚ) ≤ x1 - x),
                  mul_nonneg (by linarith : (0:ℚ) ≤ B - y1)
                    (by linarith : (0:ℚ) ≤ x - x0)]
              linarith
            · exact ih (y1 :: ys) (by simpa using hlen) (List.chain'_cons.mp hch).2
                (by simp) (fun y hy => hB y (List.mem_cons_of_mem y0 hy))

/-- Unpacking a successful run of the `select_def_fan` loop body. -/
lemma fan_candidate_some {rc rs : ℚ} {f : FanCurve} {c : FanCandidate}
    (h : fan_candidate rc rs f = some c) :
    rs ≤ list_max f.sp ∧ rc ≤ np_interp rs f.sp f.cfm ∧
      c = ⟨f.model, np_interp rs f.sp f.cfm,
        ((np_interp rs f.sp f.cfm - rc) / rc) * 100, list_max f.cfm, list_max f.sp⟩ := by
  unfold fan_candidate at h
  split_ifs at h with h1 h2
  · exact ⟨h1, h2, (Option.some_inj.mp h).symm⟩


/-- Behaviour of the optimizer loop over any strictly ascending candidate
list: the returned velocity and loss are those of the returned diameter,
every candidate smaller than the returned diameter fails the ceiling, and
either the returned diameter is a candidate passing the ceiling or every
candidate fails and the fallback `36` is returned. -/
lemma optimize_go_spec (cfm L k maxDP : ℚ) :
    ∀ l : List ℚ, l.Pairwise (· < ·) →
    (optimize_go cfm L k maxDP l).2.1 =
      calculate_velocity cfm (optimize_go cfm L k maxDP l).1 ∧
    (optimize_go cfm L k maxDP l).2.2 =
      manifold_loss_at cfm L k (optimize_go cfm L k maxDP l).1 ∧
    (∀ d ∈ l, d < (optimize_go cfm L k maxDP l).1 → maxDP < manifold_loss_at cfm L k d) ∧
    ((optimize_go cfm L k maxDP l).1 ∈ l ∧ (optimize_go cfm L k maxDP l).2.2 ≤ maxDP ∨
      (optimize_go cfm L k maxDP l).1 = 36 ∧ ∀ d ∈ l, maxDP < manifold_loss_at cfm L k d) := by
  intro l
  induction l with
  | nil =>
    intro _
    refine ⟨rfl, rfl, by simp, Or.inr ⟨rfl, by simp⟩⟩
  | cons d ds ih =>
    intro hpw
    have hpw2 := List.pairwise_cons.mp hpw
    by_cases hd : calculate_duct_pressure_loss L d (calculate_velocity cfm d) k ≤ maxDP
    · have hgo : optimize_go cfm L k maxDP (d :: ds) =
          (d, calculate_velocity cfm d,
            calculate_duct_pressure_loss L d (calculate_velocity cfm d) k) := by
        rw [optimize_go, if_pos hd]
      rw [hgo]
      refine ⟨rfl, rfl, ?_, Or.inl ⟨List.mem_cons_self d ds, hd⟩⟩
      intro e he hlt
      rcases List.mem_cons.mp he with rfl | he2
      · exact absurd hlt (lt_irrefl e)
      · exact absurd hlt (not_lt.mpr (le_of_lt (hpw2.1 e he2)))
    · have hgo : optimize_go cfm L k maxDP (d :: ds) = optimize_go cfm L k maxDP ds := by
        rw [optimize_go, if_neg hd]
      obtain ⟨ihv, ihdp, ihsm, ihm⟩ := ih hpw2.2
      rw [hgo]
      refine ⟨ihv, ihdp, ?_, ?_⟩
      · intro e he hlt
        rcases List.mem_cons.mp he with rfl | he2
        · exact lt_of_not_le hd
        · exact ihsm e he2 hlt
      · rcases ihm with ⟨hmem, hle⟩ | ⟨h36, hall⟩
        · exact Or.inl ⟨List.mem_cons_of_mem d hmem, hle⟩
        · refine Or.inr ⟨h36, ?_⟩
          intro e he
          rcases List.mem_cons.mp he with rfl | he2
          · exact lt_of_not_le hd
          · exact hall e he2


/-! ### Claims -/

/-- C1: for every non-empty dryer list, the aggregated `total_system_dp` is
the maximum of the per-dryer connector losses plus the manifold loss (the
`worst_connector_dp` is a member of, and an upper bound of, the list of
connector losses — the max, never their sum), `total_cfm` is the sum of the
dryer CFMs, and exactly this pair is what is fed to `select_def_fan`. -/
theorem c1_aggregation (dryers : List DryerInput) (m : ManifoldInput)
    (h : dryers ≠ []) :
    (compute_system dryers m).total_cfm = (dryers.map DryerInput.cfm).sum ∧
    (compute_system dryers m).total_system_dp =
      (compute_system dryers m).worst_connector_dp + (compute_system dryers m).manifold_dp ∧
    (compute_system dryers m).worst_connector_dp ∈ dryers.map dryer_connector_dp ∧
    (∀ d ∈ dryers, dryer_connector_dp d ≤ (compute_system dryers m).worst_connector_dp) ∧
    (compute_system dryers m).suitable_fans =
      select_def_fan (compute_system dryers m).total_cfm
        (compute_system dryers m).total_system_dp := by
  refine ⟨rfl, rfl, ?_, ?_, rfl⟩
  · exact list_max_mem (fun hm => h (List.map_eq_nil_iff.mp hm))
  · intro d hd
    exact le_list_max (List.mem_map_of_mem dryer_connector_dp hd)

/-- C1 witness at a concrete one-dryer system. -/
theorem c1_aggregation_witness :
    (compute_system [scenario_dryer] sample_manifold).worst_connector_dp ∈
      [scenario_dryer].map dryer_connector_dp :=
  (c1_aggregation [scenario_dryer] sample_manifold (by simp)).2.2.1

/-- C2: the optimizer always returns a member of the standard diameter set
together with its own computed velocity and loss; every smaller standard
diameter fails the ceiling (so the result is the smallest satisfying member),
and either the returned loss meets the ceiling or no standard diameter does
and the largest (36) is returned with its out-of-spec loss. -/
theorem c2_optimizer_smallest (total_cfm length k_sum max_dp : ℚ) :
    (optimize_manifold_diameter total_cfm length k_sum max_dp).1 ∈ standard_diameters ∧
    (optimize_manifold_diameter total_cfm length k_sum max_dp).2.1 =
      calculate_velocity total_cfm (optimize_manifold_diameter total_cfm length k_sum max_dp).1 ∧
    (optimize_manifold_diameter total_cfm length k_sum max_dp).2.2 =
      calculate_duct_pressure_loss length (optimize_manifold_diameter total_cfm length k_sum max_dp).1
        (optimize_manifold_diameter total_cfm length k_sum max_dp).2.1 k_sum ∧
    (∀ d ∈ standard_diameters, d < (optimize_manifold_diameter total_cfm length k_sum max_dp).1 →
      max_dp < manifold_loss_at total_cfm length k_sum d) ∧
    ((optimize_manifold_diameter total_cfm length k_sum max_dp).2.2 ≤ max_dp ∨
      ((optimize_manifold_diameter total_cfm length k_sum max_dp).1 = 36 ∧
        ∀ d ∈ standard_diameters, max_dp < manifold_loss_at total_cfm length k_sum d)) := by
  have hpw : standard_diameters.Pairwise (· < ·) := by decide
  simp only [optimize_manifold_diameter]
  obtain ⟨hv, hdp, hsm, hm⟩ := optimize_go_spec total_cfm length k_sum max_dp standard_diameters hpw
  have hdp2 : (optimize_go total_cfm length k_sum max_dp standard_diameters).2.2 =
      calculate_duct_pressure_loss length
        (optimize_go total_cfm length k_sum max_dp standard_diameters).1
        (optimize_go total_cfm length k_sum max_dp standard_diameters).2.1 k_sum := by
    rw [hv]; exact hdp
  rcases hm with ⟨hmem, hle⟩ | ⟨h36, hall⟩
  · exact ⟨hmem, hv, hdp2, hsm, Or.inl hle⟩
  · exact ⟨by rw [h36]; decide, hv, hdp2, hsm, Or.inr ⟨h36, hall⟩⟩

/-- Concrete run of the optimizer: at 200 CFM, 10 ft, kSum 3, ceiling 1" WC,
the 4-inch diameter fails the ceiling and the 5-inch diameter is returned. -/
lemma optimize_eval_small :
    optimize_manifold_diameter 200 10 3 1 =
      (5, calculate_velocity 200 5,
        calculate_duct_pressure_loss 10 5 (calculate_velocity 200 5) 3) := by
  have h4 : ¬ calculate_duct_pressure_loss 10 4 (calculate_velocity 200 4) 3 ≤ 1 := by
    norm_num [calculate_duct_pressure_loss, calculate_duct_pressure_loss_rho,
      calculate_velocity, np_pi, AIR_DENSITY, DUCT_FRICTION_FACTOR]
  have h5 : calculate_duct_pressure_loss 10 5 (calculate_velocity 200 5) 3 ≤ 1 := by
    norm_num [calculate_duct_pressure_loss, calculate_duct_pressure_loss_rho,
      calculate_velocity, np_pi, AIR_DENSITY, DUCT_FRICTION_FACTOR]
  rw [optimize_manifold_diameter, standard_diameters, optimize_go, if_neg h4,
    optimize_go, if_pos h5]

/-- C2 witness: on the 200 CFM run the returned diameter is 5, so the
theorem's minimality clause applies to the smaller standard diameter 4 and
shows its loss violates the 1" WC ceiling. -/
theorem c2_optimizer_smallest_witness :
    (1 : ℚ) < manifold_loss_at 200 10 3 4 :=
  (c2_optimizer_smallest 200 10 3 1).2.2.2.1 4 (by decide)
    (by rw [optimize_eval_small]; norm_num)

/-- C4 counterexample: the claim asserts `calculate_velocity` returns 0 for
every diameter ≤ 0, but because the diameter is squared inside the area
formula, a strictly negative diameter yields a positive area, and the
velocity at diameter −4 is the (nonzero) velocity of the 4-inch duct. -/
theorem c4_counterexample :
    ((-4 : ℚ) ≤ 0) ∧ calculate_velocity 200 (-4) ≠ 0 := by
  constructor
  · norm_num
  · norm_num [calculate_velocity, np_pi]

/-- C4 amended: `calculate_duct_pressure_loss` does return 0 for every
diameter ≤ 0 (and every length, velocity and kSum); `calculate_velocity`
returns 0 only at diameter = 0, while for a strictly negative diameter it
returns the velocity of the corresponding positive diameter, not 0. -/
theorem c4_degenerate_guard (cfm length velocity k_sum diameter : ℚ) :
    (diameter ≤ 0 → calculate_duct_pressure_loss length diameter velocity k_sum = 0) ∧
    calculate_velocity cfm 0 = 0 ∧
    (diameter < 0 → calculate_velocity cfm diameter = calculate_velocity cfm (-diameter)) := by
  refine ⟨?_, ?_, ?_⟩
  · intro hd
    unfold calculate_duct_pressure_loss calculate_duct_pressure_loss_rho
    rw [if_pos hd]
  · unfold calculate_velocity
    norm_num
  · intro _
    unfold calculate_velocity
    rw [neg_div, neg_sq]

/-- C4 witness at diameter −4. -/
theorem c4_degenerate_guard_witness :
    calculate_duct_pressure_loss 10 (-4) 100 3 = 0 ∧
    calculate_velocity 200 0 = 0 ∧
    calculate_velocity 200 (-4) = calculate_velocity 200 4 := by
  refine ⟨(c4_degenerate_guard 200 10 100 3 (-4)).1 (by norm_num),
    (c4_degenerate_guard 200 10 100 3 (-4)).2.1, ?_⟩
  have h := (c4_degenerate_guard 200 10 100 3 (-4)).2.2 (by norm_num)
  simpa using h

/-- C5 counterexample: in the single-dryer scenario (CFM 200, 4" outlet,
10 ft, two 90° elbows, one lateral tee) the connector kSum is 3.25, not 2.75
(2·0.5 + 0.75 + 0.5 + 1.0 = 3.25), and the computed connector loss exceeds
the 0.25" WC ceiling (it is ≈ 1.255" WC, not ≈ 0.226), so the warning is
raised. -/
theorem c5_counterexample :
    dryer_total_k scenario_dryer ≠ 2.75 ∧
    DRYER_CONNECTOR_MAX_DP < dryer_connector_dp scenario_dryer := by
  constructor
  · norm_num [dryer_total_k, scenario_dryer, K_90_ELBOW, K_45_ELBOW, K_30_ELBOW,
      K_LATERAL_TEE, K_ENTRY_FLUSH, K_EXIT]
  · norm_num [DRYER_CONNECTOR_MAX_DP, dryer_connector_dp, dryer_connector_velocity,
      dryer_total_k, scenario_dryer, calculate_velocity, calculate_duct_pressure_loss,
      calculate_duct_pressure_loss_rho, np_pi, AIR_DENSITY, DUCT_FRICTION_FACTOR,
      K_90_ELBOW, K_45_ELBOW, K_30_ELBOW, K_LATERAL_TEE, K_ENTRY_FLUSH, K_EXIT]

/-- C5 amended: in that scenario the kSum is 3.25, the velocity is
200/(π·(4/12)²/4) = 7200/π ≈ 2292 FPM, the connector loss equals
(0.35·10/4 + 3.25)·0.0696·(velocity/1096.2)² ≈ 1.255" WC, which exceeds the
0.25" WC connector ceiling, so the warning is raised. -/
theorem c5_scenario :
    dryer_total_k scenario_dryer = 3.25 ∧
    dryer_connector_velocity scenario_dryer = 7200 / np_pi ∧
    2291 < dryer_connector_velocity scenario_dryer ∧
    dryer_connector_velocity scenario_dryer < 2292 ∧
    dryer_connector_dp scenario_dryer =
      (DUCT_FRICTION_FACTOR * (10 / 4) + 3.25) * AIR_DENSITY *
        (dryer_connector_velocity scenario_dryer / 1096.2) ^ 2 ∧
    1.25 < dryer_connector_dp scenario_dryer ∧
    dryer_connector_dp scenario_dryer < 1.26 ∧
    DRYER_CONNECTOR_MAX_DP < dryer_connector_dp scenario_dryer := by
  refine ⟨?_, ?_, ?_, ?_, ?_, ?_, ?_, ?_⟩ <;>
    norm_num [DRYER_CONNECTOR_MAX_DP, dryer_connector_dp, dryer_connector_velocity,
      dryer_total_k, scenario_dryer, calculate_velocity, calculate_duct_pressure_loss,
      calculate_duct_pressure_loss_rho, np_pi, AIR_DENSITY, DUCT_FRICTION_FACTOR,
      K_90_ELBOW, K_45_ELBOW, K_30_ELBOW, K_LATERAL_TEE, K_ENTRY_FLUSH, K_EXIT]

/-- C6 counterexample: `calculate_duct_pressure_loss` is not monotone in
velocity over all arguments — increasing the velocity from −2 to −1 (other
arguments fixed, diameter positive) strictly decreases the loss, because the
velocity enters squared. -/
theorem c6_counterexample :
    ¬ (calculate_duct_pressure_loss 0 1 (-2) 1 ≤ calculate_duct_pressure_loss 0 1 (-1) 1) := by
  norm_num [calculate_duct_pressure_loss, calculate_duct_pressure_loss_rho,
    AIR_DENSITY, DUCT_FRICTION_FACTOR]

/-- C6 amended: for every positive diameter the loss is monotone
non-decreasing in length and in kSum unconditionally, and monotone
non-decreasing in velocity provided the velocities are non-negative and the
friction-plus-fitting factor `0.35·L/D + kSum` is non-negative (as it is for
the physical, non-negative lengths and K-sums). -/
theorem c6_monotonicity (diameter : ℚ) (hD : 0 < diameter) :
    (∀ len1 len2 velocity k_sum : ℚ, len1 ≤ len2 →
      calculate_duct_pressure_loss len1 diameter velocity k_sum ≤
        calculate_duct_pressure_loss len2 diameter velocity k_sum) ∧
    (∀ len velocity k1 k2 : ℚ, k1 ≤ k2 →
      calculate_duct_pressure_loss len diameter velocity k1 ≤
        calculate_duct_pressure_loss len diameter velocity k2) ∧
    (∀ len k_sum v1 v2 : ℚ, 0 ≤ v1 → v1 ≤ v2 →
      0 ≤ DUCT_FRICTION_FACTOR * (len / diameter) + k_sum →
      calculate_duct_pressure_loss len diameter v1 k_sum ≤
        calculate_duct_pressure_loss len diameter v2 k_sum) := by
  have hD2 : ¬ diameter ≤ 0 := not_le.mpr hD
  refine ⟨?_, ?_, ?_⟩
  · intro len1 len2 velocity k_sum h12
    unfold calculate_duct_pressure_loss calculate_duct_pressure_loss_rho
    rw [if_neg hD2, if_neg hD2]
    have ht : (0:ℚ) ≤ (velocity / 1096.2) ^ 2 := sq_nonneg _
    have hl : len1 / diameter ≤ len2 / diameter := by gcongr
    simp only [DUCT_FRICTION_FACTOR, AIR_DENSITY]
    nlinarith [mul_nonneg ht (by linarith : (0:ℚ) ≤ len2 / diameter - len1 / diameter)]
  · intro len velocity k1 k2 h12
    unfold calculate_duct_pressure_loss calculate_duct_pressure_loss_rho
    rw [if_neg hD2, if_neg hD2]
    have ht : (0:ℚ) ≤ (velocity / 1096.2) ^ 2 := sq_nonneg _
    simp only [DUCT_FRICTION_FACTOR, AIR_DENSITY]
    nlinarith [mul_nonneg ht (by linarith : (0:ℚ) ≤ k2 - k1)]
  · intro len k_sum v1 v2 hv1 h12 htot
    unfold calculate_duct_pressure_loss calculate_duct_pressure_loss_rho
    rw [if_neg hD2, if_neg hD2]
    have h1 : v1 / 1096.2 ≤ v2 / 1096.2 := by
      rw [div_eq_mul_inv, div_eq_mul_inv]
      exact mul_le_mul_of_nonneg_right h12 (by positivity)
    have h0 : (0:ℚ) ≤ v1 / 1096.2 := by positivity
    have hsq : (v1 / 1096.2) ^ 2 ≤ (v2 / 1096.2) ^ 2 := pow_le_pow_left₀ h0 h1 2
    have hcoef : (0:ℚ) ≤ (DUCT_FRICTION_FACTOR * (len / diameter) + k_sum) * AIR_DENSITY := by
      have : (0:ℚ) ≤ AIR_DENSITY := by norm_num [AIR_DENSITY]
      exact mul_nonneg htot this
    calc (DUCT_FRICTION_FACTOR * (len / diameter) + k_sum) * AIR_DENSITY * (v1 / 1096.2) ^ 2
        ≤ (DUCT_FRICTION_FACTOR * (len / diameter) + k_sum) * AIR_DENSITY * (v2 / 1096.2) ^ 2 :=
          mul_le_mul_of_nonneg_left hsq hcoef

/-! ### Evaluation of the fan selector at the spec scenario (1500 CFM, 0.6" WC) -/


lemma lm_sp04 : list_max [(0:ℚ), 0.25, 0.5, 0.75, 1.0] = 1 := by
  norm_num [list_max, List.foldl, max_def]

lemma lm_sp08 : list_max [(0:ℚ), 0.25, 0.5, 0.75, 1.0, 1.25, 1.5, 1.75] = 1.75 := by
  norm_num [list_max, List.foldl, max_def]

lemma lm_sp2 : list_max [(0:ℚ), 0.25, 0.5, 0.75, 1.0, 1.25, 1.5, 1.75, 2.0] = 2 := by
  norm_num [list_max, List.foldl, max_def]

lemma interp04 :
    np_interp (3/5) [(0:ℚ), 0.25, 0.5, 0.75, 1.0] [540, 490, 430, 350, 240] = 398 := by
  norm_num [np_interp]

lemma interp08 :
    np_interp (3/5) [(0:ℚ), 0.25, 0.5, 0.75, 1.0, 1.25, 1.5, 1.75]
      [970, 890, 840, 780, 680, 540, 440, 270] = 816 := by
  norm_num [np_interp]

lemma interp015 :
    np_interp (3/5) [(0:ℚ), 0.25, 0.5, 0.75, 1.0, 1.25, 1.5, 1.75, 2.0]
      [1860, 1780, 1700, 1610, 1520, 1410, 1280, 1140, 990] = 1664 := by
  norm_num [np_interp]

lemma interp025 :
    np_interp (3/5) [(0:ℚ), 0.25, 0.5, 0.75, 1.0, 1.25, 1.5, 1.75, 2.0]
      [2480, 2400, 2320, 2230, 2140, 2040, 1930, 1790, 1630] = 2284 := by
  norm_num [np_interp]

lemma interp035 :
    np_interp (3/5) [(0:ℚ), 0.25, 0.5, 0.75, 1.0, 1.25, 1.5, 1.75, 2.0]
      [4100, 3940, 3770, 3610, 3460, 3300, 3120, 2900, 2630] = 3706 := by
  norm_num [np_interp]

lemma interp050 :
    np_interp (3/5) [(0:ℚ), 0.25, 0.5, 0.75, 1.0, 1.25, 1.5, 1.75, 2.0]
      [5850, 5660, 5450, 5300, 5090, 4890, 4680, 4460, 4230] = 5390 := by
  norm_num [np_interp]

lemma lm_cfm015 : list_max [(1860:ℚ), 1780, 1700, 1610, 1520, 1410, 1280, 1140, 990] = 1860 := by
  norm_num [list_max, List.foldl, max_def]

lemma lm_cfm025 : list_max [(2480:ℚ), 2400, 2320, 2230, 2140, 2040, 1930, 1790, 1630] = 2480 := by
  norm_num [list_max, List.foldl, max_def]

lemma lm_cfm035 : list_max [(4100:ℚ), 3940, 3770, 3610, 3460, 3300, 3120, 2900, 2630] = 4100 := by
  norm_num [list_max, List.foldl, max_def]

lemma lm_cfm050 : list_max [(5850:ℚ), 5660, 5450, 5300, 5090, 4890, 4680, 4460, 4230] = 5850 := by
  norm_num [list_max, List.foldl, max_def]

lemma fc04 : fan_candidate 1500 (3/5)
    ⟨"DEF04", [540, 490, 430, 350, 240], [0, 0.25, 0.5, 0.75, 1.0]⟩ = none := by
  rw [fan_candidate]; dsimp only
  rw [interp04, lm_sp04]
  norm_num

lemma fc08 : fan_candidate 1500 (3/5)
    ⟨"DEF08", [970, 890, 840, 780, 680, 540, 440, 270],
      [0, 0.25, 0.5, 0.75, 1.0, 1.25, 1.5, 1.75]⟩ = none := by
  rw [fan_candidate]; dsimp only
  rw [interp08, lm_sp08]
  norm_num

lemma fc015 : fan_candidate 1500 (3/5)
    ⟨"DEF015", [1860, 1780, 1700, 1610, 1520, 1410, 1280, 1140, 990],
      [0, 0.25, 0.5, 0.75, 1.0, 1.25, 1.5, 1.75, 2.0]⟩ = some cand015 := by
  rw [fan_candidate]; dsimp only
  rw [interp015, lm_sp2, lm_cfm015]
  norm_num [cand015]

lemma fc025 : fan_candidate 1500 (3/5)
    ⟨"DEF025", [2480, 2400, 2320, 2230, 2140, 2040, 1930, 1790, 1630],
      [0, 0.25, 0.5, 0.75, 1.0, 1.25, 1.5, 1.75, 2.0]⟩ = some cand025 := by
  rw [fan_candidate]; dsimp only
  rw [interp025, lm_sp2, lm_cfm025]
  norm_num [cand025]

lemma fc035 : fan_candidate 1500 (3/5)
    ⟨"DEF035", [4100, 3940, 3770, 3610, 3460, 3300, 3120, 2900, 2630],
      [0, 0.25, 0.5, 0.75, 1.0, 1.25, 1.5, 1.75, 2.0]⟩ = some cand035 := by
  rw [fan_candidate]; dsimp only
  rw [interp035, lm_sp2, lm_cfm035]
  norm_num [cand035]

lemma fc050 : fan_candidate 1500 (3/5)
    ⟨"DEF050", [5850, 5660, 5450, 5300, 5090, 4890, 4680, 4460, 4230],
      [0, 0.25, 0.5, 0.75, 1.0, 1.25, 1.5, 1.75, 2.0]⟩ = some cand050 := by
  rw [fan_candidate]; dsimp only
  rw [interp050, lm_sp2, lm_cfm050]
  norm_num [cand050]

lemma qualifying_eval : qualifying_fans 1500 (3/5) =
    [cand015, cand025, cand035, cand050] := by
  rw [qualifying_fans, DEF_FAN_CURVES]
  simp only [List.filterMap_cons, List.filterMap_nil, fc04, fc08, fc015, fc025, fc035, fc050]

lemma fanLE_015_025 : fanLE cand015 cand025 := by
  simp only [fanLE, cand015, cand025]
  rw [abs_of_nonpos (by norm_num), abs_of_nonneg (by norm_num)]
  norm_num

lemma fanLE_025_035 : fanLE cand025 cand035 := by
  simp only [fanLE, cand025, cand035]
  rw [abs_of_nonneg (by norm_num), abs_of_nonneg (by norm_num)]
  norm_num

lemma fanLE_035_050 : fanLE cand035 cand050 := by
  simp only [fanLE, cand035, cand050]
  rw [abs_of_nonneg (by norm_num), abs_of_nonneg (by norm_num)]
  norm_num

/-- Concrete run of the selector at the spec scenario: DEF015 ranks first
(margin closest to 17.5 %), followed by DEF025, DEF035, DEF050. -/
lemma select_eval : select_def_fan 1500 (3/5) =
    [cand015, cand025, cand035, cand050] := by
  rw [select_def_fan, qualifying_eval]
  simp only [List.insertionSort, List.orderedInsert, fanLE_015_025, fanLE_025_035,
    fanLE_035_050, if_true]

/-- C6 witness: monotonicity instances at diameter 4. -/
theorem c6_monotonicity_witness :
    calculate_duct_pressure_loss 10 4 2000 3 ≤ calculate_duct_pressure_loss 20 4 2000 3 ∧
    calculate_duct_pressure_loss 10 4 2000 3 ≤ calculate_duct_pressure_loss 10 4 2000 5 ∧
    calculate_duct_pressure_loss 10 4 1000 3 ≤ calculate_duct_pressure_loss 10 4 2000 3 := by
  refine ⟨(c6_monotonicity 4 (by norm_num)).1 10 20 2000 3 (by norm_num),
    (c6_monotonicity 4 (by norm_num)).2.1 10 2000 3 5 (by norm_num),
    (c6_monotonicity 4 (by norm_num)).2.2 10 3 1000 2000 (by norm_num) (by norm_num) ?_⟩
  norm_num [DUCT_FRICTION_FACTOR]

/-- C3: every candidate returned by `select_def_fan` corresponds to a catalog
fan whose curve covers the required static pressure (`requiredSP ≤ max
sampled SP` — a fan beyond its curve is never included) and whose linearly
interpolated available CFM at that pressure is at least the required CFM. -/
theorem c3_fan_qualification (rc rs : ℚ) (c : FanCandidate)
    (hc : c ∈ select_def_fan rc rs) :
    rc ≤ c.available_cfm ∧
    ∃ f ∈ DEF_FAN_CURVES, c.model = f.model ∧ rs ≤ list_max f.sp ∧
      c.available_cfm = np_interp rs f.sp f.cfm := by
  rw [select_def_fan, List.mem_insertionSort, qualifying_fans] at hc
  obtain ⟨f, hf, hfc⟩ := List.mem_filterMap.mp hc
  obtain ⟨h1, h2, h3⟩ := fan_candidate_some hfc
  subst h3
  exact ⟨h2, f, hf, rfl, h1, rfl⟩

/-- C3 witness: the DEF015 candidate at 1500 CFM / 0.6" WC. -/
theorem c3_fan_qualification_witness :
    (1500:ℚ) ≤ cand015.available_cfm ∧
    ∃ f ∈ DEF_FAN_CURVES, cand015.model = f.model ∧ (3/5:ℚ) ≤ list_max f.sp ∧
      cand015.available_cfm = np_interp (3/5) f.sp f.cfm :=
  c3_fan_qualification 1500 (3/5) cand015
    (by rw [select_eval]; exact List.mem_cons_self _ _)

/-- C7: the selector's output is sorted ascending by the distance of the
margin from the 17.5 % midpoint, is a permutation of the qualifying fans,
each candidate's margin is `(availableCFM − requiredCFM)/requiredCFM × 100`,
and the aggregator takes the first entry as the selected fan (the rest being
the ranked alternatives). -/
theorem c7_margin_ranking (rc rs : ℚ) :
    List.Pairwise fanLE (select_def_fan rc rs) ∧
    (select_def_fan rc rs).Perm (qualifying_fans rc rs) ∧
    (∀ c ∈ select_def_fan rc rs, c.margin = ((c.available_cfm - rc) / rc) * 100) ∧
    ∀ (dryers : List DryerInput) (m : ManifoldInput),
      (compute_system dryers m).selected_fan =
        ((compute_system dryers m).suitable_fans).head? := by
  refine ⟨List.sorted_insertionSort fanLE _, List.perm_insertionSort fanLE _, ?_,
    fun _ _ => rfl⟩
  intro c hc
  rw [select_def_fan, List.mem_insertionSort, qualifying_fans] at hc
  obtain ⟨f, hf, hfc⟩ := List.mem_filterMap.mp hc
  obtain ⟨_, _, h3⟩ := fan_candidate_some hfc
  subst h3
  rfl

/-- C7 witness: the margin formula instantiated at the DEF015 candidate. -/
theorem c7_margin_ranking_witness :
    cand015.margin = ((cand015.available_cfm - 1500) / 1500) * 100 :=
  (c7_margin_ranking 1500 (3/5)).2.2.1 cand015
    (by rw [select_eval]; exact List.mem_cons_self _ _)

/-- Interpolation on every catalog curve is bounded by the largest airflow
in the catalog (5850 CFM, the DEF050 free-delivery point). -/
lemma np_interp_catalog_le (f : FanCurve) (hf : f ∈ DEF_FAN_CURVES) (rs : ℚ) :
    np_interp rs f.sp f.cfm ≤ 5850 := by
  simp only [DEF_FAN_CURVES] at hf
  fin_cases hf <;>
  · dsimp only
    apply np_interp_le
    · rfl
    · norm_num [List.chain'_cons]
    · simp
    · intro y hy
      fin_cases hy <;> norm_num

/-- At 6000 CFM no catalog fan can qualify, whatever the required SP. -/
lemma qualifying_6000 (rs : ℚ) : qualifying_fans 6000 rs = [] := by
  rw [qualifying_fans, List.filterMap_eq_nil_iff]
  intro f hf
  have hle := np_interp_catalog_le f hf rs
  rw [fan_candidate]
  split_ifs with h1 h2
  · exfalso
    have : (6000:ℚ) ≤ 5850 := le_trans h2 hle
    norm_num at this
  · rfl
  · rfl

lemma select_6000_empty (rs : ℚ) : select_def_fan 6000 rs = [] := by
  rw [select_def_fan, qualifying_6000]
  rfl

/-- C8: at a required CFM of 6000 — above the maximum of every catalog
curve — `select_def_fan` returns the empty list for every required SP, the
checked (exception-aware) selector returns it without raising, and any
aggregated system totalling 6000 CFM records `selected_fan = None`. -/
theorem c8_no_fan_empty :
    (∀ rs : ℚ, select_def_fan 6000 rs = [] ∧
      select_def_fan_checked 6000 rs = some []) ∧
    ∀ (dryers : List DryerInput) (m : ManifoldInput),
      (compute_system dryers m).total_cfm = 6000 →
      (compute_system dryers m).selected_fan = none := by
  constructor
  · intro rs
    refine ⟨select_6000_empty rs, ?_⟩
    rw [select_def_fan_checked, if_neg, select_6000_empty rs]
    rintro ⟨h0, -⟩
    norm_num at h0
  · intro dryers m h
    have h2 : (compute_system dryers m).selected_fan =
        (select_def_fan (compute_system dryers m).total_cfm
          (compute_system dryers m).total_system_dp).head? := rfl
    rw [h2, h, select_6000_empty]
    rfl


/-- C8 witness: the two-dryer 6000-CFM system selects no fan. -/
theorem c8_no_fan_empty_witness :
    (compute_system [big_dryer, big_dryer] sample_manifold).selected_fan = none :=
  c8_no_fan_empty.2 [big_dryer, big_dryer] sample_manifold
    (by show ([big_dryer, big_dryer].map DryerInput.cfm).sum = 6000
        norm_num [big_dryer])

/-- C9: determinism round trip — re-running `select_def_fan` on a computed
system's `total_cfm` and `total_system_dp` (same catalog, which is a fixed
constant) reproduces exactly the recorded `selected_fan` as its first
element. -/
theorem c9_round_trip (dryers : List DryerInput) (m : ManifoldInput) :
    (select_def_fan (compute_system dryers m).total_cfm
      (compute_system dryers m).total_system_dp).head? =
      (compute_system dryers m).selected_fan := rfl

/-- C10: the margin division is guarded — for nonzero required CFM the
checked selector never raises; with required CFM 0 and some fan reaching the
margin computation it divides by zero (`none`); and the aggregator always
supplies a positive required CFM for a non-empty dryer list whose CFMs
respect the UI minimum of 50. -/
theorem c10_margin_division_guard :
    (∀ rc rs : ℚ, rc ≠ 0 → select_def_fan_checked rc rs = some (select_def_fan rc rs)) ∧
    (∀ rs : ℚ, (∃ f ∈ DEF_FAN_CURVES, rs ≤ list_max f.sp ∧
        (0:ℚ) ≤ np_interp rs f.sp f.cfm) →
      select_def_fan_checked 0 rs = none) ∧
    (∀ (dryers : List DryerInput) (m : ManifoldInput), dryers ≠ [] →
      (∀ d ∈ dryers, 50 ≤ d.cfm) → 0 < (compute_system dryers m).total_cfm) := by
  refine ⟨?_, ?_, ?_⟩
  · intro rc rs hrc
    rw [select_def_fan_checked, if_neg]
    rintro ⟨h0, -⟩
    exact hrc h0
  · intro rs h
    rw [select_def_fan_checked, if_pos ⟨rfl, h⟩]
  · intro dryers m hne h50
    have he : (compute_system dryers m).total_cfm = (dryers.map DryerInput.cfm).sum := rfl
    rw [he]
    cases dryers with
    | nil => exact absurd rfl hne
    | cons d ds =>
      rw [List.map_cons, List.sum_cons]
      have hd := h50 d (List.mem_cons_self d ds)
      have hrest : 0 ≤ (ds.map DryerInput.cfm).sum := by
        apply List.sum_nonneg
        intro x hx
        obtain ⟨d2, hd2, rfl⟩ := List.mem_map.mp hx
        have := h50 d2 (List.mem_cons_of_mem d hd2)
        linarith
      linarith

/-- C10 witness: the checked selector at 1500 CFM, the division-by-zero case
at required CFM 0, and the positive total of a one-dryer system. -/
theorem c10_margin_division_guard_witness :
    select_def_fan_checked 1500 (3/5) = some (select_def_fan 1500 (3/5)) ∧
    select_def_fan_checked 0 0 = none ∧
    0 < (compute_system [scenario_dryer] sample_manifold).total_cfm := by
  refine ⟨c10_margin_division_guard.1 1500 (3/5) (by norm_num),
    c10_margin_division_guard.2.1 0 ?_,
    c10_margin_division_guard.2.2 [scenario_dryer] sample_manifold (by simp) ?_⟩
  · refine ⟨⟨"DEF04", [540, 490, 430, 350, 240], [0, 0.25, 0.5, 0.75, 1.0]⟩,
      by rw [DEF_FAN_CURVES]; exact List.mem_cons_self _ _, ?_, ?_⟩
    · dsimp only
      rw [lm_sp04]
      norm_num
    · dsimp only
      norm_num [np_interp]
  · intro d hd
    rw [List.mem_singleton] at hd
    subst hd
    norm_num [scenario_dryer]
